import Mathlib

/-!
Verification of the flooring_bournmouth support-chat bridge.

The development shallowly embeds the two "hard" components of the
repository: the Telegram webhook ingestion handler
(`src/unnamed/part_000`, the `POST` route) and the client-side Zustand
synchronization store (`src/src/store/support-store.ts`), plus the
status gate of the chat input component
(`src/src/components/support/support-chat-input.tsx`).

External collaborators (Supabase persistence, the Telegram HTTP API,
object storage, the realtime transport) are out of scope per the spec
and are modelled as oracles / explicit parameters; the control flow of
the in-repo code is translated branch by branch.
-/

namespace SupportChat

/-- The `SupportMessage` record (`src/types/support`, as used by the store and
the webhook).  Strings and integers model the JSON fields; nullable
fields are `Option`. -/
structure SupportMessage where
  id : String
  conversation_id : String
  sender_type : String
  sender_name : Option String
  sender_telegram_id : Option Int
  content : Option String
  image_url : Option String
  telegram_message_id : Option Int
  is_read : Bool
  created_at : String
deriving DecidableEq, Repr

/-- The `SupportConversation` record, restricted to the fields the embedded
code reads (`id`, `status`). -/
structure SupportConversation where
  id : String
  status : String
deriving DecidableEq, Repr

/-- JavaScript truthiness for `string | undefined` values: the empty
string and `undefined` are falsy.  `jsTruthy o` is `some s` exactly when
`o` is a non-empty string, mirroring expressions such as
`message.text || message.caption || undefined` in the webhook. -/
def jsTruthy : Option String → Option String
  | some s => if s.isEmpty then none else some s
  | none => none

/-- JS `a || b` on `string | undefined` operands. -/
def jsOr (a b : Option String) : Option String :=
  match jsTruthy a with
  | some s => some s
  | none => jsTruthy b

/-- JS `s.startsWith(p)`, embedded as a character-list prefix test (the
core `String.startsWith` is opaque to the kernel, so this executable
form is used for the `temp_` placeholder-id test of the store). -/
def strStartsWith (s p : String) : Bool := p.data.isPrefixOf s.data

-- =====================================================
-- Telegram webhook handler (src/unnamed/part_000)
-- =====================================================

/-- One entry of a Telegram `photo` array; only `file_id` is read. -/
structure TelegramPhotoSize where
  file_id : String
deriving DecidableEq, Repr

/-- The Telegram `from` user object, restricted to the fields read by
the handler (`is_bot`, `first_name`, `id`). -/
structure TelegramUser where
  id : Int
  is_bot : Bool
  first_name : String
deriving DecidableEq, Repr

/-- A Telegram message, restricted to the fields the handler reads.
`from` is a Lean keyword, so the field is named `from_`. -/
structure TelegramMessage where
  message_id : Int
  from_ : TelegramUser
  message_thread_id : Option Int
  text : Option String
  caption : Option String
  photo : Option (List TelegramPhotoSize)
deriving DecidableEq, Repr

/-- A Telegram update as consumed by the handler. -/
structure TelegramUpdate where
  update_id : Int
  message : Option TelegramMessage
deriving DecidableEq, Repr

/-- Environment configuration read by the webhook route at call time. -/
structure WebhookEnv where
  webhookSecret : Option String
  botToken : Option String
deriving Repr

/-- Oracle for the three fallible external stages of the image pipeline in
`downloadAndUploadTelegramPhoto`: Telegram `getFile` (returns the
`file_path`, `none` when the response is not ok or lacks a path, or the
fetch throws), the file download (`none` when `!downloadResponse.ok`),
and the Supabase storage upload (`none` on upload error).  `publicUrl`
models `getPublicUrl` on the stored path. -/
structure ImagePipelineEnv where
  getFilePath : String → String → Option String
  download : String → String → Option String
  uploadPath : String → String → Option String
  publicUrl : String → String

/-- Model of `downloadAndUploadTelegramPhoto(fileId, botToken)`
(src/unnamed/part_000 lines 16-79): chains getFile → download → upload →
getPublicUrl, returning `null` (here `none`) as soon as any stage fails;
the surrounding try/catch likewise yields `null`, which the `Option`
chaining models. -/
def downloadAndUploadTelegramPhoto (env : ImagePipelineEnv)
    (fileId : String) (botToken : String) : Option String :=
  match env.getFilePath botToken fileId with
  | none => none
  | some filePath =>
    match env.download botToken filePath with
    | none => none
    | some fileBlob =>
      match env.uploadPath filePath fileBlob with
      | none => none
      | some path => some (env.publicUrl path)

/-- Collaborator interfaces consumed by the webhook route:
`telegramService.isFromSupportGroup`, `telegramService.extractThreadId`,
`telegramService.isConfigured`, whether `sendMessageToTopic` would
succeed (its failure is caught in the route), the persistence lookup
`supportService.getConversationByThreadId`, the id the persistence layer
assigns to a created message, and the image pipeline oracle. -/
structure WebhookDeps where
  isFromSupportGroup : TelegramMessage → Bool
  extractThreadId : TelegramMessage → Option Int
  isConfigured : Bool
  warningSendOk : Bool
  getConversationByThreadId : Int → Option SupportConversation
  createdMessageId : String
  imageEnv : ImagePipelineEnv

/-- The HTTP response of the webhook route. -/
inductive WebhookResponse where
  /-- HTTP 200 `{ ok: true }` acknowledgment. -/
  | ok
  /-- HTTP 401 `{ error: "Unauthorized" }`. -/
  | unauthorized
  /-- HTTP 500 `{ error: "Webhook not configured" }`. -/
  | notConfigured
  /-- HTTP 400 `{ error: "Invalid JSON" }`. -/
  | invalidJson
deriving DecidableEq, Repr

/-- Fields passed to `supportService.createMessage` by the webhook. -/
structure CreateMessageFields where
  conversation_id : String
  sender_type : String
  sender_name : String
  sender_telegram_id : Int
  content : Option String
  image_url : Option String
deriving DecidableEq, Repr

/-- Observable outcome of one webhook invocation: the HTTP response,
the `createMessage` calls performed, the `setMessageTelegramId` calls
performed, and the thread ids to which a warning message send was
attempted. -/
structure WebhookResult where
  response : WebhookResponse
  persisted : List CreateMessageFields
  telegramIdSet : List (String × Int)
  warningsAttempted : List Int
deriving DecidableEq, Repr

/-- An acknowledgment with no side effects. -/
def WebhookResult.okEmpty : WebhookResult :=
  { response := .ok, persisted := [], telegramIdSet := [], warningsAttempted := [] }

/-- The webhook route `POST` (src/unnamed/part_000 lines 96-243),
translated branch by branch.  `secretToken` is the
`x-telegram-bot-api-secret-token` header (`none` when absent);
`body` is the parsed update, `none` when `req.json()` throws. -/
def webhookPOST (env : WebhookEnv) (deps : WebhookDeps)
    (secretToken : Option String) (body : Option TelegramUpdate) : WebhookResult :=
  match env.webhookSecret with
  | none =>
    { response := .notConfigured, persisted := [], telegramIdSet := [], warningsAttempted := [] }
  | some expectedSecret =>
    if secretToken ≠ some expectedSecret then
      { response := .unauthorized, persisted := [], telegramIdSet := [], warningsAttempted := [] }
    else
      match body with
      | none =>
        { response := .invalidJson, persisted := [], telegramIdSet := [], warningsAttempted := [] }
      | some update =>
        match update.message with
        | none => .okEmpty
        | some message =>
          if !(deps.isFromSupportGroup message) then .okEmpty
          else
            match deps.extractThreadId message with
            | none => .okEmpty
            | some threadId =>
              if message.from_.is_bot then .okEmpty
              else
                match deps.getConversationByThreadId threadId with
                | none =>
                  -- warning send is attempted only when the telegram
                  -- service is configured; its failure is caught
                  { response := .ok, persisted := [], telegramIdSet := [],
                    warningsAttempted := if deps.isConfigured then [threadId] else [] }
                | some conversation =>
                  let content := jsOr message.text message.caption
                  let imageUrl :=
                    match message.photo with
                    | some photos =>
                      if photos.length > 0 then
                        match photos.get? (photos.length - 1) with
                        | some largestPhoto =>
                          match env.botToken with
                          | some botToken =>
                            jsTruthy (downloadAndUploadTelegramPhoto deps.imageEnv
                              largestPhoto.file_id botToken)
                          | none => none
                        | none => none
                      else none
                    | none => none
                  if content = none ∧ imageUrl = none then .okEmpty
                  else
                    { response := .ok,
                      persisted := [{ conversation_id := conversation.id,
                                      sender_type := "support",
                                      sender_name := message.from_.first_name,
                                      sender_telegram_id := message.from_.id,
                                      content := content,
                                      image_url := imageUrl }],
                      telegramIdSet := [(deps.createdMessageId, message.message_id)],
                      warningsAttempted := [] }

-- =====================================================
-- Client synchronization store (src/src/store/support-store.ts)
-- =====================================================

/-- The device-local cache (`localStorage` entries keyed
`support_messages_<conversationId>`), modelled as an association list
from conversation id to the cached JSON array. -/
def Cache := List (String × List SupportMessage)

/-- Models `localStorage.setItem` for a message-cache key: last write wins. -/
def cacheSet (cache : Cache) (conversationId : String)
    (msgs : List SupportMessage) : Cache :=
  (conversationId, msgs) :: (cache.filter (fun kv => kv.1 ≠ conversationId))

/-- Models `localStorage.getItem` for a message-cache key. -/
def cacheGet (cache : Cache) (conversationId : String) :
    Option (List SupportMessage) :=
  match cache.find? (fun kv => kv.1 = conversationId) with
  | some kv => some kv.2
  | none => none

/-- The slice of the Zustand store state the verified operations read
and write, plus the device-local cache they touch. -/
structure StoreState where
  isOpen : Bool
  unreadCount : Nat
  currentConversation : Option SupportConversation
  messages : List SupportMessage
  isSending : Bool
  error : Option String
  cache : Cache

/-- The realtime `INSERT` payload handler registered by
`subscribeToMessages` (support-store.ts lines 381-413): dedup by id,
strip `temp_`-prefixed optimistic placeholders, append the authoritative
message at the tail, persist the updated list to the cache, and bump the
unread counter for support messages while the widget is closed. -/
def realtimeInsertHandler (conversationId : String)
    (newMessage : SupportMessage) (s : StoreState) : StoreState :=
  let messageExists := s.messages.any (fun m => m.id = newMessage.id)
  if messageExists then s
  else
    let messagesWithoutTemp := s.messages.filter (fun m => ¬ strStartsWith m.id "temp_")
    let updatedMessages := messagesWithoutTemp ++ [newMessage]
    let s1 := { s with messages := updatedMessages,
                       cache := cacheSet s.cache conversationId updatedMessages }
    if newMessage.sender_type = "support" ∧ ¬ s.isOpen then
      { s1 with unreadCount := s.unreadCount + 1 }
    else s1

/-- The synchronous prefix of `sendMessage(content, imageUrl)`
(support-store.ts lines 268-304): no-op without a current conversation
or anonymous id; otherwise append the optimistic `temp_` message and set
the sending flag.  `tempId` stands for the generated
`temp_${Date.now()}_${Math.random()}` string and `now` for
`new Date().toISOString()`. -/
def sendMessageStart (anonymousIdPresent : Bool) (content : String)
    (imageUrl : Option String) (tempId : String) (now : String)
    (s : StoreState) : StoreState :=
  match s.currentConversation with
  | none => s
  | some conv =>
    if ¬ anonymousIdPresent then s
    else
      let tempMessage : SupportMessage :=
        { id := tempId,
          conversation_id := conv.id,
          sender_type := "user",
          sender_name := none,
          sender_telegram_id := none,
          content := jsTruthy (some content),
          image_url := jsTruthy imageUrl,
          telegram_message_id := none,
          is_read := false,
          created_at := now }
      { s with messages := s.messages ++ [tempMessage],
               isSending := true, error := none }

/-- The deferred success-path cleanup of `sendMessage` (the `setTimeout`
body, support-store.ts lines 329-335): drop the optimistic entry with
the temp id of this send and clear the sending flag. -/
def sendMessageTimeoutCleanup (tempId : String) (s : StoreState) : StoreState :=
  { s with messages := s.messages.filter (fun m => m.id ≠ tempId),
           isSending := false }

/-- The failure path of `sendMessage` (support-store.ts lines 338-348):
drop the optimistic entry immediately and surface an error. -/
def sendMessageFailureCleanup (tempId : String) (errorMessage : String)
    (s : StoreState) : StoreState :=
  { s with messages := s.messages.filter (fun m => m.id ≠ tempId),
           error := some errorMessage, isSending := false }

/-- Model of `loadConversationMessages(conversationId, anonymousId)`
(support-store.ts lines 206-231).  `fetched` is the server
`data.messages || []` on HTTP success and `none` on a failed request:
on success the in-memory list is replaced and the cache entry is written
only when the list is non-empty; on failure only the error field is
set. -/
def loadConversationMessages (conversationId : String)
    (fetched : Option (List SupportMessage)) (s : StoreState) : StoreState :=
  match fetched with
  | none => { s with error := some "Failed to load messages" }
  | some messages =>
    let s1 := { s with messages := messages }
    if messages.length > 0 then
      { s1 with cache := cacheSet s.cache conversationId messages }
    else s1

-- =====================================================
-- Realtime subscription exclusivity (support-store.ts
-- activeSubscription / setCurrentConversation / subscribeToMessages)
-- =====================================================

/-- The module-level `activeSubscription` slot: the subscribed
conversation id plus a token identifying the underlying realtime
channel object held by its `unsubscribe` closure. -/
structure ActiveSub where
  conversationId : String
  token : Nat
deriving DecidableEq, Repr

/-- The process-wide subscription-relevant state: the
`activeSubscription` slot, the multiset of realtime channels currently
open against the transport (each identified by the token minted when
`supabase.channel(...)` was subscribed), and a fresh-token counter. -/
structure SubSysState where
  active : Option ActiveSub
  openChannels : List Nat
  nextToken : Nat
deriving DecidableEq, Repr

/-- The `unsubscribe` closure of the current subscription
(support-store.ts lines 419-423): `removeChannel` the held channel and
null out `activeSubscription`. -/
def unsubscribeActive (s : SubSysState) : SubSysState :=
  match s.active with
  | none => s
  | some a =>
    { s with active := none,
             openChannels := s.openChannels.filter (fun t => t ≠ a.token) }

/-- Model of `subscribeToMessages(conversationId)` (support-store.ts lines
355-427): return early when already subscribed to this conversation,
otherwise tear down the previous subscription, open a new channel and
record it in `activeSubscription`. -/
def subscribeToMessagesOp (conversationId : String) (s : SubSysState) : SubSysState :=
  match s.active with
  | some a =>
    if a.conversationId = conversationId then s
    else
      let s1 := unsubscribeActive s
      { s1 with active := some ⟨conversationId, s1.nextToken⟩,
                openChannels := s1.openChannels ++ [s1.nextToken],
                nextToken := s1.nextToken + 1 }
  | none =>
    { s with active := some ⟨conversationId, s.nextToken⟩,
             openChannels := s.openChannels ++ [s.nextToken],
             nextToken := s.nextToken + 1 }

/-- Model of `setCurrentConversation(conversation)` (support-store.ts lines
162-204), restricted to its subscription effects: always tear down the
existing subscription first; when a conversation is selected and an
anonymous id is present in localStorage, resubscribe for it (selecting
`null`, or a missing anonymous id, leaves no subscription). -/
def setCurrentConversationOp (conversation : Option String)
    (anonymousIdPresent : Bool) (s : SubSysState) : SubSysState :=
  let s1 := unsubscribeActive s
  match conversation with
  | some conversationId =>
    if anonymousIdPresent then subscribeToMessagesOp conversationId s1 else s1
  | none => s1

/-- Store operations that touch the subscription slot: selecting a
conversation (or none), and a direct `subscribeToMessages` call (as
`createConversation` performs on success). -/
inductive StoreOp where
  | select (conversation : Option String) (anonymousIdPresent : Bool)
  | subscribe (conversationId : String)
deriving DecidableEq, Repr

/-- Interpretation of one store operation on the subscription state. -/
def applyStoreOp (s : SubSysState) (op : StoreOp) : SubSysState :=
  match op with
  | .select conversation anonymousIdPresent =>
      setCurrentConversationOp conversation anonymousIdPresent s
  | .subscribe conversationId => subscribeToMessagesOp conversationId s

/-- Run a sequence of store operations from a given state. -/
def runStoreOps (s : SubSysState) (ops : List StoreOp) : SubSysState :=
  ops.foldl applyStoreOp s

/-- Initial process state: no subscription, no open channels. -/
def initSubSys : SubSysState := { active := none, openChannels := [], nextToken := 0 }

/-- The exclusivity invariant: the set of open realtime channels is
exactly the channel of the `activeSubscription` slot — one channel when
a subscription is active, none otherwise. -/
def subExclusive (s : SubSysState) : Prop :=
  match s.active with
  | some a => s.openChannels = [a.token]
  | none => s.openChannels = []

instance (s : SubSysState) : Decidable (subExclusive s) := by
  unfold subExclusive
  match s.active with
  | some a => exact inferInstanceAs (Decidable (s.openChannels = [a.token]))
  | none => exact inferInstanceAs (Decidable (s.openChannels = []))

-- =====================================================
-- Chat input status gate
-- (src/src/components/support/support-chat-input.tsx)
-- =====================================================

/-- What `SupportChatInput` renders: for a closed/resolved conversation
only the "Start New Ticket" affordance (no form, no send button),
otherwise the send form. -/
inductive ChatInputView where
  | startNewTicket
  | sendForm
deriving DecidableEq, Repr

/-- The status gate of `SupportChatInput` (support-chat-input.tsx lines
136-165): when `currentConversation?.status` is `closed` or `resolved`
the component returns the start-new block and never reaches the form. -/
def supportChatInputView (currentConversation : Option SupportConversation) :
    ChatInputView :=
  match currentConversation with
  | some conv =>
    if conv.status = "closed" ∨ conv.status = "resolved" then .startNewTicket
    else .sendForm
  | none => .sendForm

/-- The `onClick` of the "Start New Ticket" button
(support-chat-input.tsx lines 151-158): clear the current conversation
and the message list via `setState`. -/
def startNewTicketClick (s : StoreState) : StoreState :=
  { s with currentConversation := none, messages := [] }

-- =====================================================
-- Sample values (used by witness theorems)
-- =====================================================

/-- An image pipeline oracle where every stage succeeds. -/
def okImageEnv : ImagePipelineEnv where
  getFilePath := fun _ fid => some (fid ++ ".jpg")
  download := fun _ p => some ("bytes:" ++ p)
  uploadPath := fun p _ => some ("st/" ++ p)
  publicUrl := fun p => "https://cdn.example/" ++ p

/-- An image pipeline oracle whose metadata stage always fails. -/
def failImageEnv : ImagePipelineEnv where
  getFilePath := fun _ _ => none
  download := fun _ p => some ("bytes:" ++ p)
  uploadPath := fun p _ => some ("st/" ++ p)
  publicUrl := fun p => "https://cdn.example/" ++ p

/-- An image pipeline oracle whose download stage always fails. -/
def failDownloadImageEnv : ImagePipelineEnv where
  getFilePath := fun _ fid => some (fid ++ ".jpg")
  download := fun _ _ => none
  uploadPath := fun p _ => some ("st/" ++ p)
  publicUrl := fun p => "https://cdn.example/" ++ p

/-- An image pipeline oracle whose upload stage always fails. -/
def failUploadImageEnv : ImagePipelineEnv where
  getFilePath := fun _ fid => some (fid ++ ".jpg")
  download := fun _ p => some ("bytes:" ++ p)
  uploadPath := fun _ _ => none
  publicUrl := fun p => "https://cdn.example/" ++ p

/-- A sample conversation. -/
def sampleConv : SupportConversation := { id := "conv1", status := "open" }

/-- Sample webhook collaborators: support-group messages are those whose
thread id is present; thread 7 resolves to `sampleConv`. -/
def sampleDeps : WebhookDeps where
  isFromSupportGroup := fun m => m.message_thread_id.isSome
  extractThreadId := fun m => m.message_thread_id
  isConfigured := true
  warningSendOk := true
  getConversationByThreadId := fun t => if t = 7 then some sampleConv else none
  createdMessageId := "m42"
  imageEnv := okImageEnv

/-- A sample environment with both secrets configured. -/
def sampleEnv : WebhookEnv := { webhookSecret := some "sec", botToken := some "bot" }

/-- A sample human Telegram user. -/
def sampleUser : TelegramUser := { id := 99, is_bot := false, first_name := "Ann" }

/-- A sample text message in topic 7. -/
def sampleMsg : TelegramMessage :=
  { message_id := 5, from_ := sampleUser, message_thread_id := some 7,
    text := some "hi", caption := none, photo := none }

/-- A sample persisted support message (server-assigned id). -/
def sampleSupportMessage : SupportMessage :=
  { id := "m1", conversation_id := "conv1", sender_type := "support",
    sender_name := some "Ann", sender_telegram_id := some 99,
    content := some "Hello", image_url := none,
    telegram_message_id := none, is_read := false, created_at := "t1" }

/-- A sample empty store state attached to `sampleConv`. -/
def sampleState : StoreState :=
  { isOpen := true, unreadCount := 0, currentConversation := some sampleConv,
    messages := [], isSending := false, error := none, cache := [] }

-- =====================================================
-- Claim theorems
-- =====================================================

/-- C3: an inbound webhook invocation whose shared-secret header does not
match the configured secret gets an explicit unauthorized response and
persists zero messages, whatever the payload; a missing server-side
secret yields the explicit misconfigured response, again with zero
messages persisted. -/
theorem webhook_auth_rejection (env : WebhookEnv) (deps : WebhookDeps)
    (secretToken : Option String) (body : Option TelegramUpdate) :
    (env.webhookSecret = none →
      (webhookPOST env deps secretToken body).response = .notConfigured ∧
      (webhookPOST env deps secretToken body).persisted = []) ∧
    (∀ sec : String, env.webhookSecret = some sec → secretToken ≠ some sec →
      (webhookPOST env deps secretToken body).response = .unauthorized ∧
      (webhookPOST env deps secretToken body).persisted = []) := by
  constructor
  · intro h
    simp [webhookPOST, h]
  · intro sec hsec hne
    simp [webhookPOST, hsec, hne]

/-- Witness for C3 at concrete inputs: a missing secret and a wrong
header token. -/
theorem webhook_auth_rejection_witness :
    ((WebhookEnv.mk none (some "bot")).webhookSecret = none ∧
      (webhookPOST (WebhookEnv.mk none (some "bot")) sampleDeps (some "x") none).response
        = .notConfigured ∧
      (webhookPOST (WebhookEnv.mk none (some "bot")) sampleDeps (some "x") none).persisted
        = []) ∧
    (sampleEnv.webhookSecret = some "sec" ∧ (some "wrong" : Option String) ≠ some "sec" ∧
      (webhookPOST sampleEnv sampleDeps (some "wrong") none).response = .unauthorized ∧
      (webhookPOST sampleEnv sampleDeps (some "wrong") none).persisted = []) := by
  refine ⟨⟨rfl, ?_⟩, rfl, by decide, ?_⟩
  · exact (webhook_auth_rejection (WebhookEnv.mk none (some "bot")) sampleDeps
      (some "x") none).1 rfl
  · exact (webhook_auth_rejection sampleEnv sampleDeps (some "wrong") none).2
      "sec" rfl (by decide)

/-- C4: an authenticated, well-formed update that carries no message, or
whose message is not from the support group, lacks a thread id, or was
authored by a bot, produces the success acknowledgment with zero
persisted messages and no other side effects. -/
theorem webhook_ignored_update (env : WebhookEnv) (deps : WebhookDeps)
    (sec : String) (update : TelegramUpdate)
    (hsec : env.webhookSecret = some sec)
    (hignore : update.message = none ∨
      ∃ m, update.message = some m ∧
        (deps.isFromSupportGroup m = false ∨
         deps.extractThreadId m = none ∨
         m.from_.is_bot = true)) :
    webhookPOST env deps (some sec) (some update) = .okEmpty := by
  rcases hignore with hnone | ⟨m, hm, hcase⟩
  · simp [webhookPOST, hsec, hnone]
  · rcases hcase with hgrp | hthread | hbot
    · simp [webhookPOST, hsec, hm, hgrp]
    · simp only [webhookPOST, hsec, hm, hthread]
      simp
    · simp only [webhookPOST, hsec, hm]
      cases hg : deps.isFromSupportGroup m <;>
        cases ht : deps.extractThreadId m <;>
          simp [hbot]

/-- Witness for C4: a bot-authored update in topic 7 is acknowledged and
dropped. -/
theorem webhook_ignored_update_witness :
    sampleEnv.webhookSecret = some "sec" ∧
    webhookPOST sampleEnv sampleDeps (some "sec")
      (some ⟨1, some { sampleMsg with from_ := { sampleUser with is_bot := true } }⟩)
      = .okEmpty :=
  ⟨rfl,
    webhook_ignored_update sampleEnv sampleDeps "sec"
      ⟨1, some { sampleMsg with from_ := { sampleUser with is_bot := true } }⟩
      rfl
      (Or.inr ⟨{ sampleMsg with from_ := { sampleUser with is_bot := true } },
        rfl, Or.inr (Or.inr rfl)⟩)⟩

/-- C5: an authenticated update whose thread id resolves to no
conversation persists zero messages, attempts at most one warning send
back to the originating topic, and is acknowledged with success; the
outcome does not depend on whether the warning send succeeds. -/
theorem webhook_unknown_thread (env : WebhookEnv) (deps : WebhookDeps)
    (sec : String) (update : TelegramUpdate) (m : TelegramMessage) (threadId : Int)
    (hsec : env.webhookSecret = some sec)
    (hm : update.message = some m)
    (hgrp : deps.isFromSupportGroup m = true)
    (hthread : deps.extractThreadId m = some threadId)
    (hbot : m.from_.is_bot = false)
    (hconv : deps.getConversationByThreadId threadId = none) :
    (webhookPOST env deps (some sec) (some update)).response = .ok ∧
    (webhookPOST env deps (some sec) (some update)).persisted = [] ∧
    (webhookPOST env deps (some sec) (some update)).warningsAttempted.length ≤ 1 ∧
    (∀ b : Bool,
      webhookPOST env { deps with warningSendOk := b } (some sec) (some update)
        = webhookPOST env deps (some sec) (some update)) := by
  simp only [webhookPOST, hsec, hm, hgrp, hthread, hbot, hconv]
  cases deps.isConfigured <;> simp

/-- Witness for C5: topic 8 resolves to no conversation. -/
theorem webhook_unknown_thread_witness :
    sampleEnv.webhookSecret = some "sec" ∧
    (TelegramUpdate.mk 1 (some { sampleMsg with message_thread_id := some 8 })).message
      = some { sampleMsg with message_thread_id := some 8 } ∧
    sampleDeps.isFromSupportGroup { sampleMsg with message_thread_id := some 8 } = true ∧
    sampleDeps.extractThreadId { sampleMsg with message_thread_id := some 8 } = some 8 ∧
    sampleDeps.getConversationByThreadId 8 = none ∧
    (webhookPOST sampleEnv sampleDeps (some "sec")
        (some ⟨1, some { sampleMsg with message_thread_id := some 8 }⟩)).response = .ok ∧
    (webhookPOST sampleEnv sampleDeps (some "sec")
        (some ⟨1, some { sampleMsg with message_thread_id := some 8 }⟩)).persisted = [] ∧
    (webhookPOST sampleEnv sampleDeps (some "sec")
        (some ⟨1, some { sampleMsg with message_thread_id := some 8 }⟩)).warningsAttempted.length
      ≤ 1 := by
  have h := webhook_unknown_thread sampleEnv sampleDeps "sec"
    ⟨1, some { sampleMsg with message_thread_id := some 8 }⟩
    { sampleMsg with message_thread_id := some 8 } 8
    rfl rfl (by decide) (by decide) (by decide) (by decide)
  exact ⟨rfl, rfl, by decide, by decide, by decide, h.1, h.2.1, h.2.2.1⟩

/-- C10: an authenticated update from the support group whose message
carries only a photo (no text, no caption) is silently acknowledged and
dropped when the bot token environment variable is absent: the image URL
is never obtained, the empty-content check fires, and zero messages are
persisted. -/
theorem webhook_photo_only_without_bot_token (env : WebhookEnv) (deps : WebhookDeps)
    (sec : String) (update : TelegramUpdate) (m : TelegramMessage) (threadId : Int)
    (conv : SupportConversation) (photos : List TelegramPhotoSize)
    (hsec : env.webhookSecret = some sec)
    (hm : update.message = some m)
    (hgrp : deps.isFromSupportGroup m = true)
    (hthread : deps.extractThreadId m = some threadId)
    (hbot : m.from_.is_bot = false)
    (hconv : deps.getConversationByThreadId threadId = some conv)
    (hphoto : m.photo = some photos)
    (hne : photos ≠ [])
    (htext : m.text = none)
    (hcap : m.caption = none)
    (htoken : env.botToken = none) :
    webhookPOST env deps (some sec) (some update) = .okEmpty := by
  simp only [webhookPOST, hsec, hm, hgrp, hthread, hbot, hconv, hphoto, htext, hcap, htoken]
  cases hgl : photos.get? (photos.length - 1) <;>
    by_cases hlen : photos.length > 0 <;>
      simp [hgl, hlen, jsOr, jsTruthy]

/-- Witness for C10: a single-photo, caption-less update against an
environment lacking `TELEGRAM_BOT_TOKEN`. -/
theorem webhook_photo_only_without_bot_token_witness :
    (WebhookEnv.mk (some "sec") none).webhookSecret = some "sec" ∧
    (WebhookEnv.mk (some "sec") none).botToken = none ∧
    webhookPOST (WebhookEnv.mk (some "sec") none) sampleDeps (some "sec")
      (some ⟨1, some { sampleMsg with text := none, photo := some [⟨"f1"⟩] }⟩)
      = .okEmpty := by
  refine ⟨rfl, rfl, ?_⟩
  exact webhook_photo_only_without_bot_token (WebhookEnv.mk (some "sec") none)
    sampleDeps "sec" ⟨1, some { sampleMsg with text := none, photo := some [⟨"f1"⟩] }⟩
    { sampleMsg with text := none, photo := some [⟨"f1"⟩] } 7 sampleConv [⟨"f1"⟩]
    rfl rfl (by decide) (by decide) (by decide) (by decide) rfl (by decide) rfl rfl rfl

/-- C8: graceful image degradation.  (i)-(iii): a failure in any stage of
the image pipeline (file-metadata retrieval, download, re-upload) makes
`downloadAndUploadTelegramPhoto` return `none` rather than fail;
(iv) the photo variant the webhook indexes (`photo[photo.length - 1]`)
is the last element of the photo array; (v) an update carrying both text
and a photo whose pipeline fails is still persisted, with the text and
no image URL. -/
theorem webhook_image_degradation
    (ienv : ImagePipelineEnv) (fid bt : String)
    (env : WebhookEnv) (deps : WebhookDeps)
    (sec t : String) (update : TelegramUpdate) (m : TelegramMessage) (threadId : Int)
    (conv : SupportConversation) (photos : List TelegramPhotoSize)
    (lastPhoto : TelegramPhotoSize)
    (hsec : env.webhookSecret = some sec)
    (hm : update.message = some m)
    (hgrp : deps.isFromSupportGroup m = true)
    (hthread : deps.extractThreadId m = some threadId)
    (hbot : m.from_.is_bot = false)
    (hconv : deps.getConversationByThreadId threadId = some conv)
    (htext : m.text = some t)
    (ht : ¬ t.isEmpty)
    (hphoto : m.photo = some photos)
    (hne : photos ≠ [])
    (hlast : photos.get? (photos.length - 1) = some lastPhoto)
    (htoken : env.botToken = some bt)
    (hfail : downloadAndUploadTelegramPhoto deps.imageEnv lastPhoto.file_id bt = none) :
    (ienv.getFilePath bt fid = none →
      downloadAndUploadTelegramPhoto ienv fid bt = none) ∧
    (∀ p, ienv.getFilePath bt fid = some p → ienv.download bt p = none →
      downloadAndUploadTelegramPhoto ienv fid bt = none) ∧
    (∀ p b, ienv.getFilePath bt fid = some p → ienv.download bt p = some b →
      ienv.uploadPath p b = none →
      downloadAndUploadTelegramPhoto ienv fid bt = none) ∧
    (photos.get? (photos.length - 1) = photos.getLast?) ∧
    ((webhookPOST env deps (some sec) (some update)).response = .ok ∧
      (webhookPOST env deps (some sec) (some update)).persisted =
        [{ conversation_id := conv.id, sender_type := "support",
           sender_name := m.from_.first_name, sender_telegram_id := m.from_.id,
           content := some t, image_url := none }]) := by
  refine ⟨?_, ?_, ?_, ?_, ?_⟩
  · intro h
    simp [downloadAndUploadTelegramPhoto, h]
  · intro p hp hd
    simp [downloadAndUploadTelegramPhoto, hp, hd]
  · intro p b hp hd hu
    simp [downloadAndUploadTelegramPhoto, hp, hd, hu]
  · rw [List.get?_eq_getElem?, List.getLast?_eq_getElem?]
  · have hlen : photos.length > 0 := List.length_pos.mpr hne
    simp only [webhookPOST, hsec, hm, hgrp, hthread, hbot, hconv, hphoto, htext,
      hlast, htoken, hfail, hlen, if_true, jsOr, jsTruthy]
    simp [ht]

/-- Sample webhook collaborators whose image pipeline metadata stage
fails. -/
def failDeps : WebhookDeps := { sampleDeps with imageEnv := failImageEnv }

/-- Witness for C8: the helper fails closed for each failing stage, the
indexed variant is the last one, and a text-plus-photo update with a
broken pipeline is persisted with the text and no image. -/
theorem webhook_image_degradation_witness :
    (failImageEnv.getFilePath "bot" "f1" = none ∧
      downloadAndUploadTelegramPhoto failImageEnv "f1" "bot" = none) ∧
    (failDownloadImageEnv.getFilePath "bot" "f1" = some "f1.jpg" ∧
      failDownloadImageEnv.download "bot" "f1.jpg" = none ∧
      downloadAndUploadTelegramPhoto failDownloadImageEnv "f1" "bot" = none) ∧
    (failUploadImageEnv.uploadPath "f1.jpg" "bytes:f1.jpg" = none ∧
      downloadAndUploadTelegramPhoto failUploadImageEnv "f1" "bot" = none) ∧
    (([⟨"f1"⟩] : List TelegramPhotoSize).get?
        (([⟨"f1"⟩] : List TelegramPhotoSize).length - 1)
      = ([⟨"f1"⟩] : List TelegramPhotoSize).getLast?) ∧
    (downloadAndUploadTelegramPhoto failDeps.imageEnv "f1" "bot" = none ∧
      (webhookPOST sampleEnv failDeps (some "sec")
          (some ⟨1, some { sampleMsg with photo := some [⟨"f1"⟩] }⟩)).response = .ok ∧
      (webhookPOST sampleEnv failDeps (some "sec")
          (some ⟨1, some { sampleMsg with photo := some [⟨"f1"⟩] }⟩)).persisted =
        [{ conversation_id := "conv1", sender_type := "support",
           sender_name := "Ann", sender_telegram_id := 99,
           content := some "hi", image_url := none }]) := by
  have hA := webhook_image_degradation failImageEnv "f1" "bot" sampleEnv failDeps
    "sec" "hi" ⟨1, some { sampleMsg with photo := some [⟨"f1"⟩] }⟩
    { sampleMsg with photo := some [⟨"f1"⟩] } 7 sampleConv [⟨"f1"⟩] ⟨"f1"⟩
    rfl rfl (by decide) (by decide) (by decide) (by decide) rfl (by decide)
    rfl (by decide) rfl rfl rfl
  have hB := webhook_image_degradation failDownloadImageEnv "f1" "bot" sampleEnv failDeps
    "sec" "hi" ⟨1, some { sampleMsg with photo := some [⟨"f1"⟩] }⟩
    { sampleMsg with photo := some [⟨"f1"⟩] } 7 sampleConv [⟨"f1"⟩] ⟨"f1"⟩
    rfl rfl (by decide) (by decide) (by decide) (by decide) rfl (by decide)
    rfl (by decide) rfl rfl rfl
  have hC := webhook_image_degradation failUploadImageEnv "f1" "bot" sampleEnv failDeps
    "sec" "hi" ⟨1, some { sampleMsg with photo := some [⟨"f1"⟩] }⟩
    { sampleMsg with photo := some [⟨"f1"⟩] } 7 sampleConv [⟨"f1"⟩] ⟨"f1"⟩
    rfl rfl (by decide) (by decide) (by decide) (by decide) rfl (by decide)
    rfl (by decide) rfl rfl rfl
  refine ⟨⟨rfl, hA.1 rfl⟩, ⟨rfl, rfl, hB.2.1 "f1.jpg" rfl rfl⟩,
    ⟨rfl, hC.2.2.1 "f1.jpg" "bytes:f1.jpg" rfl rfl rfl⟩,
    hA.2.2.2.1, rfl, hA.2.2.2.2.1, hA.2.2.2.2.2⟩

/-- C2: the realtime insert handler is idempotent per message id — when a
message with the server-assigned id of the event is already in the client
list, the event leaves the whole store state (message list, unread
counter, cache) unchanged. -/
theorem realtimeInsertHandler_idempotent (conversationId : String)
    (newMessage : SupportMessage) (s : StoreState)
    (hpresent : ∃ m ∈ s.messages, m.id = newMessage.id) :
    realtimeInsertHandler conversationId newMessage s = s := by
  have hex : s.messages.any (fun m => m.id = newMessage.id) = true := by
    rcases hpresent with ⟨m, hm, hid⟩
    exact List.any_eq_true.mpr ⟨m, hm, by simp [hid]⟩
  simp [realtimeInsertHandler, hex]

/-- Witness for C2: redelivering the event for an already-present
message is a no-op on a concrete state. -/
theorem realtimeInsertHandler_idempotent_witness :
    (∃ m ∈ ({ sampleState with messages := [sampleSupportMessage] } : StoreState).messages,
      m.id = sampleSupportMessage.id) ∧
    realtimeInsertHandler "conv1" sampleSupportMessage
        { sampleState with messages := [sampleSupportMessage] }
      = { sampleState with messages := [sampleSupportMessage] } :=
  ⟨⟨sampleSupportMessage, by decide, rfl⟩,
    realtimeInsertHandler_idempotent "conv1" sampleSupportMessage
      { sampleState with messages := [sampleSupportMessage] }
      ⟨sampleSupportMessage, by decide, rfl⟩⟩

/-- C6: cache coherence of `loadConversationMessages` — a successful
load of N>0 messages replaces the in-memory list and overwrites the
cache entry for this conversation with exactly those messages; a
successful load of zero messages empties the in-memory list but leaves
the cache untouched. -/
theorem loadConversationMessages_cache_coherence (conversationId : String)
    (msgs : List SupportMessage) (s : StoreState) :
    (msgs ≠ [] →
      (loadConversationMessages conversationId (some msgs) s).messages = msgs ∧
      cacheGet (loadConversationMessages conversationId (some msgs) s).cache conversationId
        = some msgs) ∧
    ((loadConversationMessages conversationId (some []) s).messages = [] ∧
      (loadConversationMessages conversationId (some []) s).cache = s.cache) := by
  constructor
  · intro h
    have hlen : msgs.length > 0 := List.length_pos.mpr h
    simp [loadConversationMessages, hlen, cacheGet, cacheSet, List.find?]
  · simp [loadConversationMessages]

/-- Witness for C6: loading one concrete message caches it. -/
theorem loadConversationMessages_cache_coherence_witness :
    ([sampleSupportMessage] ≠ ([] : List SupportMessage)) ∧
    (loadConversationMessages "conv1" (some [sampleSupportMessage]) sampleState).messages
      = [sampleSupportMessage] ∧
    cacheGet (loadConversationMessages "conv1" (some [sampleSupportMessage])
        sampleState).cache "conv1"
      = some [sampleSupportMessage] ∧
    (loadConversationMessages "conv1" (some []) sampleState).cache = sampleState.cache := by
  have h := loadConversationMessages_cache_coherence "conv1" [sampleSupportMessage] sampleState
  have h1 := h.1 (by decide)
  exact ⟨by decide, h1.1, h1.2, h.2.2⟩

/-- C9: status-gated input — for a conversation whose status is
`resolved` or `closed` the input component renders only the
"Start New Ticket" affordance (no send form, hence no client-initiated
send or network call), and that affordance clears the current
conversation and the message list. -/
theorem supportChatInput_status_gate (conv : SupportConversation) (s : StoreState)
    (hstatus : conv.status = "closed" ∨ conv.status = "resolved") :
    supportChatInputView (some conv) = .startNewTicket ∧
    supportChatInputView (some conv) ≠ .sendForm ∧
    (startNewTicketClick s).currentConversation = none ∧
    (startNewTicketClick s).messages = [] := by
  have hview : supportChatInputView (some conv) = .startNewTicket := by
    rcases hstatus with h | h <;> simp [supportChatInputView, h]
  refine ⟨hview, ?_, rfl, rfl⟩
  rw [hview]
  exact fun hcontra => ChatInputView.noConfusion hcontra

/-- Witness for C9: a resolved conversation renders only the start-new
affordance. -/
theorem supportChatInput_status_gate_witness :
    ((SupportConversation.mk "c9" "resolved").status = "closed" ∨
      (SupportConversation.mk "c9" "resolved").status = "resolved") ∧
    supportChatInputView (some (SupportConversation.mk "c9" "resolved"))
      = .startNewTicket ∧
    supportChatInputView (some (SupportConversation.mk "c9" "resolved")) ≠ .sendForm ∧
    (startNewTicketClick sampleState).currentConversation = none ∧
    (startNewTicketClick sampleState).messages = [] :=
  ⟨Or.inr rfl,
    supportChatInput_status_gate (SupportConversation.mk "c9" "resolved") sampleState
      (Or.inr rfl)⟩

/-- Tearing down the current subscription from an exclusive state leaves
no subscription and no open channel, without touching the token
counter. -/
theorem unsubscribeActive_exclusive (s : SubSysState) (h : subExclusive s) :
    (unsubscribeActive s).active = none ∧
    (unsubscribeActive s).openChannels = [] ∧
    (unsubscribeActive s).nextToken = s.nextToken := by
  unfold subExclusive at h
  unfold unsubscribeActive
  cases ha : s.active with
  | none =>
    rw [ha] at h
    exact ⟨by rw [ha], h, rfl⟩
  | some a =>
    rw [ha] at h
    refine ⟨rfl, ?_, rfl⟩
    rw [h]
    simp

/-- The `subscribeToMessages` operation preserves subscription exclusivity. -/
theorem subscribeToMessagesOp_exclusive (conversationId : String) (s : SubSysState)
    (h : subExclusive s) : subExclusive (subscribeToMessagesOp conversationId s) := by
  unfold subscribeToMessagesOp
  cases ha : s.active with
  | none =>
    have hch : s.openChannels = [] := by unfold subExclusive at h; rw [ha] at h; exact h
    simp [subExclusive, hch]
  | some a =>
    by_cases hc : a.conversationId = conversationId
    · simp only [hc, if_pos rfl]
      simpa [hc] using h
    · have hch : s.openChannels = [a.token] := by
        unfold subExclusive at h; rw [ha] at h; exact h
      simp [hc, unsubscribeActive, ha, hch, subExclusive]

/-- The `setCurrentConversation` operation preserves subscription exclusivity. -/
theorem setCurrentConversationOp_exclusive (conversation : Option String)
    (anonymousIdPresent : Bool) (s : SubSysState) (h : subExclusive s) :
    subExclusive (setCurrentConversationOp conversation anonymousIdPresent s) := by
  have hdown := unsubscribeActive_exclusive s h
  have hdownEx : subExclusive (unsubscribeActive s) := by
    unfold subExclusive
    rw [hdown.1]
    exact hdown.2.1
  unfold setCurrentConversationOp
  cases conversation with
  | none => exact hdownEx
  | some cid =>
    by_cases hid : anonymousIdPresent
    · simp only [hid, if_pos]
      exact subscribeToMessagesOp_exclusive cid _ hdownEx
    · simp only [hid, if_neg]
      exact hdownEx

/-- Every store operation preserves subscription exclusivity. -/
theorem applyStoreOp_exclusive (s : SubSysState) (op : StoreOp)
    (h : subExclusive s) : subExclusive (applyStoreOp s op) := by
  cases op with
  | select conversation anonymousIdPresent =>
    exact setCurrentConversationOp_exclusive conversation anonymousIdPresent s h
  | subscribe conversationId => exact subscribeToMessagesOp_exclusive conversationId s h

/-- Any sequence of store operations preserves subscription
exclusivity. -/
theorem runStoreOps_exclusive (ops : List StoreOp) :
    ∀ s : SubSysState, subExclusive s → subExclusive (runStoreOps s ops) := by
  induction ops with
  | nil => exact fun s h => h
  | cons op rest ih => exact fun s h => ih _ (applyStoreOp_exclusive s op h)

/-- C7: subscription exclusivity — after any sequence of store
operations from the initial state, at most one realtime subscription is
active process-wide (the open channels are exactly the channel held by
the active slot); in particular, selecting conversation A then conversation B
leaves exactly one open channel, subscribed for B, and selecting "none"
leaves no subscription and no dangling channel. -/
theorem subscription_exclusivity (ops : List StoreOp) :
    subExclusive (runStoreOps initSubSys ops) ∧
    (runStoreOps initSubSys
        [.select (some "A") true, .select (some "B") true]).active.map
          (fun a => a.conversationId) = some "B" ∧
    (runStoreOps initSubSys
        [.select (some "A") true, .select (some "B") true]).openChannels.length = 1 ∧
    (runStoreOps initSubSys [.select (some "A") true, .select none true]).active = none ∧
    (runStoreOps initSubSys [.select (some "A") true, .select none true]).openChannels
      = [] :=
  ⟨runStoreOps_exclusive ops initSubSys (by decide),
    by decide, by decide, by decide, by decide⟩

/-- Number of visible messages carrying a given text content. -/
def countWithContent (msgs : List SupportMessage) (c : String) : Nat :=
  (msgs.filter (fun m => m.content = some c)).length

theorem countWithContent_append (xs ys : List SupportMessage) (c : String) :
    countWithContent (xs ++ ys) c = countWithContent xs c + countWithContent ys c := by
  simp [countWithContent]

theorem countWithContent_eq_zero (msgs : List SupportMessage) (c : String)
    (h : ∀ m ∈ msgs, m.content ≠ some c) : countWithContent msgs c = 0 := by
  simp only [countWithContent, List.length_eq_zero, List.filter_eq_nil_iff]
  intro m hm
  simp [h m hm]

theorem forall_mem_filter {P : SupportMessage → Prop} (msgs : List SupportMessage)
    (p : SupportMessage → Bool) (h : ∀ m ∈ msgs, P m) :
    ∀ m ∈ msgs.filter p, P m :=
  fun m hm => h m (List.mem_of_mem_filter hm)

theorem any_id_eq_false (msgs : List SupportMessage) (i : String)
    (h : ∀ m ∈ msgs, m.id ≠ i) : msgs.any (fun m => m.id = i) = false := by
  rw [List.any_eq_false]
  intro m hm
  simp [h m hm]

/-- The message list after the synchronous part of `sendMessage`: the
optimistic `temp_` placeholder is appended at the tail. -/
theorem sendMessageStart_messages (s : StoreState) (conv : SupportConversation)
    (c : String) (imageUrl : Option String) (tempId now : String)
    (hconv : s.currentConversation = some conv) :
    (sendMessageStart true c imageUrl tempId now s).messages
      = s.messages ++
        [{ id := tempId, conversation_id := conv.id, sender_type := "user",
           sender_name := none, sender_telegram_id := none,
           content := jsTruthy (some c), image_url := jsTruthy imageUrl,
           telegram_message_id := none, is_read := false, created_at := now }] := by
  simp [sendMessageStart, hconv]

/-- The message list after the realtime handler when the incoming id is
not yet present: placeholders are stripped, the authoritative message is
appended at the tail. -/
theorem realtimeInsertHandler_messages (conversationId : String)
    (newMessage : SupportMessage) (s : StoreState)
    (h : s.messages.any (fun m => m.id = newMessage.id) = false) :
    (realtimeInsertHandler conversationId newMessage s).messages
      = s.messages.filter (fun m => ¬ strStartsWith m.id "temp_") ++ [newMessage] := by
  simp only [realtimeInsertHandler, h, Bool.false_eq_true, if_false]
  split <;> rfl

/-- C1: optimistic substitution — starting from a state whose list holds
no message with content `c`, sending `c` (which appends the optimistic
`temp_` placeholder) and then processing the realtime INSERT event for
the persisted message yields exactly one visible message with content
`c`, whether the deferred success cleanup of the send runs after the
realtime event (first trace) or before it (second trace). -/
theorem optimistic_substitution (s : StoreState) (conv : SupportConversation)
    (c tempId now : String) (real : SupportMessage)
    (hconv : s.currentConversation = some conv)
    (hc : c.isEmpty = false)
    (hnodup : ∀ m ∈ s.messages, m.content ≠ some c)
    (htemp : strStartsWith tempId "temp_" = true)
    (hrealid : strStartsWith real.id "temp_" = false)
    (hrealnew : ∀ m ∈ s.messages, m.id ≠ real.id)
    (hrealcontent : real.content = some c) :
    countWithContent (sendMessageTimeoutCleanup tempId
        (realtimeInsertHandler conv.id real
          (sendMessageStart true c none tempId now s))).messages c = 1 ∧
    countWithContent (realtimeInsertHandler conv.id real
        (sendMessageTimeoutCleanup tempId
          (sendMessageStart true c none tempId now s))).messages c = 1 := by
  have hid_ne : tempId ≠ real.id := by
    intro he
    rw [he, hrealid] at htemp
    exact Bool.noConfusion htemp
  have hcontent_temp : jsTruthy (some c) = some c := by simp [jsTruthy, hc]
  set temp : SupportMessage :=
    { id := tempId, conversation_id := conv.id, sender_type := "user",
      sender_name := none, sender_telegram_id := none,
      content := jsTruthy (some c), image_url := jsTruthy none,
      telegram_message_id := none, is_read := false, created_at := now } with htempdef
  have hstart : (sendMessageStart true c none tempId now s).messages
      = s.messages ++ [temp] :=
    sendMessageStart_messages s conv c none tempId now hconv
  have hcount_real : countWithContent [real] c = 1 := by
    simp [countWithContent, hrealcontent]
  constructor
  · -- realtime event first, deferred cleanup afterwards
    have hexA : (s.messages ++ [temp]).any (fun m => m.id = real.id) = false := by
      apply any_id_eq_false
      intro m hm
      rcases List.mem_append.mp hm with hm | hm
      · exact hrealnew m hm
      · rw [List.mem_singleton.mp hm]
        exact fun he => hid_ne he
    have hhandler : (realtimeInsertHandler conv.id real
        (sendMessageStart true c none tempId now s)).messages
        = (s.messages ++ [temp]).filter (fun m => ¬ strStartsWith m.id "temp_") ++ [real] := by
      rw [realtimeInsertHandler_messages _ _ _ (by rw [hstart]; exact hexA), hstart]
    have hstrip : (s.messages ++ [temp]).filter (fun m => ¬ strStartsWith m.id "temp_")
        = s.messages.filter (fun m => ¬ strStartsWith m.id "temp_") := by
      rw [List.filter_append]
      simp [htemp]
    simp only [sendMessageTimeoutCleanup, hhandler, hstrip]
    rw [List.filter_append, countWithContent_append]
    have h0 : countWithContent ((s.messages.filter
        (fun m => ¬ strStartsWith m.id "temp_")).filter (fun m => m.id ≠ tempId)) c = 0 :=
      countWithContent_eq_zero _ _
        (forall_mem_filter _ _ (forall_mem_filter _ _ hnodup))
    have hid_ne2 : real.id ≠ tempId := fun he => hid_ne (Eq.symm he)
    have hreal_keep : ([real].filter (fun m => m.id ≠ tempId)) = [real] := by
      simp [hid_ne2]
    rw [h0, hreal_keep, hcount_real]
  · -- deferred cleanup first, realtime event afterwards
    have hcleanup : (sendMessageTimeoutCleanup tempId
        (sendMessageStart true c none tempId now s)).messages
        = s.messages.filter (fun m => m.id ≠ tempId) := by
      simp only [sendMessageTimeoutCleanup, hstart, List.filter_append]
      simp
    have hexB : (s.messages.filter (fun m => m.id ≠ tempId)).any
        (fun m => m.id = real.id) = false :=
      any_id_eq_false _ _ (forall_mem_filter _ _ hrealnew)
    have hhandler : (realtimeInsertHandler conv.id real
        (sendMessageTimeoutCleanup tempId
          (sendMessageStart true c none tempId now s))).messages
        = (s.messages.filter (fun m => m.id ≠ tempId)).filter
            (fun m => ¬ strStartsWith m.id "temp_") ++ [real] := by
      rw [realtimeInsertHandler_messages _ _ _ (by rw [hcleanup]; exact hexB), hcleanup]
    rw [hhandler, countWithContent_append]
    have h0 : countWithContent ((s.messages.filter (fun m => m.id ≠ tempId)).filter
        (fun m => ¬ strStartsWith m.id "temp_")) c = 0 :=
      countWithContent_eq_zero _ _
        (forall_mem_filter _ _ (forall_mem_filter _ _ hnodup))
    rw [h0, hcount_real]

/-- Witness for C1: sending "Hello" and receiving its realtime event
leaves exactly one visible "Hello" message in both interleavings. -/
theorem optimistic_substitution_witness :
    sampleState.currentConversation = some sampleConv ∧
    "Hello".isEmpty = false ∧
    strStartsWith "temp_1" "temp_" = true ∧
    strStartsWith sampleSupportMessage.id "temp_" = false ∧
    sampleSupportMessage.content = some "Hello" ∧
    countWithContent (sendMessageTimeoutCleanup "temp_1"
        (realtimeInsertHandler sampleConv.id sampleSupportMessage
          (sendMessageStart true "Hello" none "temp_1" "t0" sampleState))).messages
      "Hello" = 1 ∧
    countWithContent (realtimeInsertHandler sampleConv.id sampleSupportMessage
        (sendMessageTimeoutCleanup "temp_1"
          (sendMessageStart true "Hello" none "temp_1" "t0" sampleState))).messages
      "Hello" = 1 := by
  have h := optimistic_substitution sampleState sampleConv "Hello" "temp_1" "t0"
    sampleSupportMessage rfl (by decide) (by decide) (by decide) (by decide)
    (by decide) rfl
  exact ⟨rfl, by decide, by decide, by decide, rfl, h.1, h.2⟩

end SupportChat
